import Mathlib

/-!
Shallow embedding of `src/lambda/cost_checker.py` (aws-cost-monitor).

Python floats are modelled as exact rationals (ℚ); the AWS collaborators
(Cost Explorer, DynamoDB, SNS) and the random generator are modelled as an
explicit environment `Env` supplying their outcomes, and each handler returns
its result together with a trace of the side-effecting calls it attempted.
Exceptions are modelled with `Except` where the Python code can raise.
-/

/-- One per-service cost entry, as built at lines 124-127 and 222-230. -/
structure ServiceCost where
  service : String
  cost : ℚ
deriving DecidableEq

/-- One element of `results['Groups']`: `Keys[0]` and, when the
`Metrics`/`UnblendedCost` keys are present, the parsed amount. -/
structure CEGroup where
  key : String
  metricsAmount : Option ℚ
deriving DecidableEq

/-- One element of `response['ResultsByTime']`: the period start date, the
optional `Total`/`UnblendedCost` amount, and the optional `Groups-key` list. -/
structure TimeBucket where
  periodStart : String
  totalAmount : Option ℚ
  groups : Option (List CEGroup)
deriving DecidableEq

/-- Environment supplying the outcomes of every external interaction:
the `SNS_TOPIC_ARN` variable, the Cost Explorer response (or the exception
it raises), whether `table.put_item` raises, whether `sns.publish` raises,
the seven `random.uniform` draws of test mode in call order, and the
current date and timestamp. -/
structure Env where
  snsTopicArn : Option String
  fetchResult : Except String (List TimeBucket)
  dynamoPutFails : Bool
  snsPublishFails : Bool
  draws : Fin 7 → ℚ
  todayDate : String
  nowTimestamp : String

/-- The item assembled at lines 33-45 for `table.put_item`. -/
structure PutItem where
  date : String
  total_cost : ℚ
  top_services : List ServiceCost
  timestamp : String
  is_test_data : Bool
deriving DecidableEq

/-- A side-effecting call attempted during a run: a DynamoDB `put_item`
or an SNS `publish` (recorded whether or not the call then fails). -/
inductive Effect where
  | dynamoPut (item : PutItem)
  | snsPublish (subject message : String)
deriving DecidableEq

/-- The JSON body placed in the returned dict: the no-data message body
(line 102), the error body (line 204), the live-mode success body
(lines 179-185) and the test-mode body (lines 290-297). -/
inductive Body where
  | message (msg : String)
  | error (err : String)
  | report (date : String) (total_cost : ℚ) (top_services : List ServiceCost)
      (alert_sent : Bool) (saved_to_db : Bool)
  | testReport (test_mode : Bool) (date : String) (total_cost : ℚ)
      (top_services : List ServiceCost) (saved_to_db : Bool) (msg : String)
deriving DecidableEq

/-- The dict returned by every handler. -/
structure LambdaResult where
  statusCode : Nat
  body : Body
deriving DecidableEq

/-- Round half to even, the rounding of Python's `round` builtin
(binary-float artifacts are not modelled). -/
def roundHalfEven (q : ℚ) : ℤ :=
  if 2 * (q - (⌊q⌋ : ℚ)) = 1 then (if ⌊q⌋ % 2 = 0 then ⌊q⌋ else ⌊q⌋ + 1)
  else round q

/-- Python `round(x, 2)`: round to two decimal places. -/
def round2 (q : ℚ) : ℚ := (roundHalfEven (q * 100) : ℚ) / 100

/-- Render a signed count of cents as a fixed two-decimal string. -/
def fmt2Int (c : ℤ) : String :=
  let s : String := if c < 0 then "-" else ""
  let a : ℕ := c.natAbs
  s ++ toString (a / 100) ++ "." ++ (if a % 100 < 10 then "0" else "") ++ toString (a % 100)

/-- Python `f-string` rendering with `.2f`: render with exactly two decimal places. -/
def fmt2 (q : ℚ) : String := fmt2Int (roundHalfEven (q * 100))

/-- The separator row `'='*40`. -/
def eq40 : String := String.mk (List.replicate 40 '=')

/-- The function `save_to_dynamodb` (lines 24-53): assembles the item with costs rounded
to two decimals and `services[:10]`, attempts the put, and returns `False`
instead of raising when anything in the body fails.  The attempted put is
recorded in the trace either way. -/
def save_to_dynamodb (env : Env) (date : String) (total_cost : ℚ)
    (services : List ServiceCost) (is_test : Bool) : Bool × List Effect :=
  let item : PutItem :=
    ⟨date, round2 total_cost,
     (services.take 10).map (fun svc => ⟨svc.service, round2 svc.cost⟩),
     env.nowTimestamp, is_test⟩
  (!env.dynamoPutFails, [Effect.dynamoPut item])

/-- The loop of lines 117-127: keep `(Keys[0], amount)` for each group whose
`Metrics`/`UnblendedCost` keys are present and whose cost exceeds `0.01`. -/
def extractServices : List CEGroup → List ServiceCost
  | [] => []
  | g :: gs =>
    match g.metricsAmount with
    | some c => if c > 1/100 then ⟨g.key, c⟩ :: extractServices gs else extractServices gs
    | none => extractServices gs

/-- Python `services.sort(key=lambda x: x['cost'], reverse=True)`: stable sort,
descending by cost. -/
def sortByCostDesc (l : List ServiceCost) : List ServiceCost :=
  l.mergeSort (fun a b => decide (b.cost ≤ a.cost))

/-- The `services` list of the live handler after filtering and sorting
(lines 117-129). -/
def liveServices (results : TimeBucket) : List ServiceCost :=
  sortByCostDesc (extractServices (results.groups.getD []))

/-- The enumerated `"i. name: $cost"` lines (lines 146-147 and 256-257). -/
def serviceLines : List ServiceCost → Nat → String
  | [], _ => ""
  | svc :: rest, i =>
    toString i ++ ". " ++ svc.service ++ ": $" ++ fmt2 svc.cost ++ "\n" ++
      serviceLines rest (i + 1)

/-- The alert banner prepended at line 159 (`COST_THRESHOLD` renders as `5.0`). -/
def alertBanner : String := " ALERT: Daily cost exceeded $5.0\n\n"

/-- The live-mode report body before alert framing (lines 136-152). -/
def realMessage (report_date : String) (total_cost : ℚ)
    (top_5 : List ServiceCost) : String :=
  "\nAWS Cost Report - " ++ report_date ++ "\n" ++ eq40 ++
    "\n\nTotal Cost: $" ++ fmt2 total_cost ++ "\n\n" ++
    (if top_5.isEmpty then "No individual service costs recorded.\n"
     else "Top Services:\n" ++ serviceLines top_5 1) ++
    "\n💾 Cost data stored in DynamoDB" ++
    "\nNote: Costs may take 24-48 hours to appear in Cost Explorer."

/-- The live-mode subject (lines 157-161). -/
def realSubject (total_cost : ℚ) : String :=
  if total_cost > 5 then " AWS Cost Alert: $" ++ fmt2 total_cost
  else "AWS Daily Cost Report: $" ++ fmt2 total_cost

/-- The live-mode message after alert framing (lines 157-161). -/
def realFramedMessage (report_date : String) (total_cost : ℚ)
    (top_5 : List ServiceCost) : String :=
  if total_cost > 5 then alertBanner ++ realMessage report_date total_cost top_5
  else realMessage report_date total_cost top_5

/-- The fixed message of the no-data notification (line 97). -/
def noDataNotice : String :=
  "No cost data available yet. This is normal for new accounts.\n\nCosts typically appear 24-48 hours after resource usage."

/-- The `try:` block of `real_cost_handler` (lines 75-186): `Except.error`
is an exception escaping to the `except` clause at line 188.  Note the
no-data publish (lines 93-98) has no inner `try`, while the report publish
(lines 164-173) swallows its failure. -/
def real_cost_try (env : Env) : Except String LambdaResult × List Effect :=
  match env.fetchResult with
  | Except.error e => (Except.error e, [])
  | Except.ok buckets =>
    match buckets.getLast? with
    | none =>
      match env.snsTopicArn with
      | some _ =>
        if env.snsPublishFails then
          (Except.error "sns publish failed",
           [Effect.snsPublish "AWS Cost Monitor - No Data Yet" noDataNotice])
        else
          (Except.ok ⟨200, Body.message "No cost data available yet"⟩,
           [Effect.snsPublish "AWS Cost Monitor - No Data Yet" noDataNotice])
      | none => (Except.ok ⟨200, Body.message "No cost data available yet"⟩, [])
    | some results =>
      let report_date := results.periodStart
      let total_cost := results.totalAmount.getD 0
      let services := liveServices results
      let top_5 := services.take 5
      let saveOut := save_to_dynamodb env report_date total_cost services false
      let alert_triggered := decide (total_cost > 5)
      let subject := realSubject total_cost
      let message := realFramedMessage report_date total_cost top_5
      let fx :=
        match env.snsTopicArn with
        | some _ => saveOut.2 ++ [Effect.snsPublish subject message]
        | none => saveOut.2
      (Except.ok ⟨200, Body.report report_date total_cost top_5 alert_triggered true⟩, fx)

/-- The function `real_cost_handler` (lines 56-205): run the `try:` block; on exception,
attempt the best-effort error publish (its own failure passes silently) and
return a 500 with the error in the body. -/
def real_cost_handler (env : Env) : LambdaResult × List Effect :=
  match real_cost_try env with
  | (Except.ok r, fx) => (r, fx)
  | (Except.error e, fx) =>
    let fx2 :=
      match env.snsTopicArn with
      | some _ =>
        fx ++ [Effect.snsPublish " AWS Cost Monitor Error" ("Error occurred:\n\n" ++ e)]
      | none => fx
    (⟨500, Body.error e⟩, fx2)

/-- The fixed 7-entry catalog of `fake_services` (lines 222-230), with
each `random.uniform` call replaced by the environment's draw. -/
def fake_services (d : Fin 7 → ℚ) : List ServiceCost :=
  [⟨"Amazon Elastic Compute Cloud - Compute", d 0⟩,
   ⟨"Amazon Simple Storage Service", d 1⟩,
   ⟨"AWS Lambda", d 2⟩,
   ⟨"Amazon Relational Database Service", d 3⟩,
   ⟨"Amazon CloudFront", d 4⟩,
   ⟨"Amazon DynamoDB", d 5⟩,
   ⟨"Amazon SNS", d 6⟩]

/-- The `(lo, hi)` bounds of the `i`-th `random.uniform` call, in catalog
order (lines 223-229). -/
def drawRange : Fin 7 → ℚ × ℚ
  | ⟨0, _⟩ => (1, 3)
  | ⟨1, _⟩ => (3/10, 12/10)
  | ⟨2, _⟩ => (1/20, 2/5)
  | ⟨3, _⟩ => (1/2, 2)
  | ⟨4, _⟩ => (1/10, 3/5)
  | ⟨5, _⟩ => (1/20, 3/10)
  | ⟨6, _⟩ => (1/100, 1/10)

/-- The draws are within the closed support of their `random.uniform` call. -/
def Env.validDraws (env : Env) : Prop :=
  ∀ i : Fin 7, (drawRange i).1 ≤ env.draws i ∧ env.draws i ≤ (drawRange i).2

/-- Python `sum(svc['cost'] for svc in fake_services)` (line 233), computed before
sorting. -/
def testTotal (d : Fin 7 → ℚ) : ℚ := ((fake_services d).map (fun s => s.cost)).sum

/-- The test-mode subject (lines 267-272). -/
def testSubject (total_cost : ℚ) : String :=
  if total_cost > 5 then " TEST ALERT - Cost: $" ++ fmt2 total_cost
  else " TEST - AWS Cost: $" ++ fmt2 total_cost

/-- The test-mode message (lines 245-265); it is independent of the
threshold comparison. -/
def testMessage (today : String) (total_cost : ℚ) (sorted : List ServiceCost) : String :=
  "\n TEST MODE - AWS Cost Report - " ++ today ++ "\n" ++ eq40 ++
    "\n\n THIS IS SIMULATED DATA FOR TESTING\n\nTotal Cost: $" ++ fmt2 total_cost ++
    "\n\nTop Services:\n" ++ serviceLines (sorted.take 5) 1 ++
    "\n" ++ eq40 ++
    "\n Test data stored in DynamoDB\n\nThis is test data generated for development.\nReal cost data will appear here once available.\n"

/-- The function `test_mode_handler` (lines 208-298): generate the fake services, total
them before sorting, sort, save, notify (failure swallowed at lines 283-284)
and return a 200 body. -/
def test_mode_handler (env : Env) : LambdaResult × List Effect :=
  let fakes := fake_services env.draws
  let total_cost := testTotal env.draws
  let sorted := sortByCostDesc fakes
  let today := env.todayDate
  let saveOut := save_to_dynamodb env today total_cost sorted true
  let message := testMessage today total_cost sorted
  let subject := testSubject total_cost
  let fx :=
    match env.snsTopicArn with
    | some _ => saveOut.2 ++ [Effect.snsPublish subject message]
    | none => saveOut.2
  (⟨200, Body.testReport true today total_cost (sorted.take 5) true
      "Test data generated and stored"⟩, fx)

/-- The function `lambda_handler` (lines 7-21): branch on `use_test_data`. -/
def lambda_handler (env : Env) (use_test_data : Bool) : LambdaResult × List Effect :=
  if use_test_data then test_mode_handler env else real_cost_handler env

/-- Whether an effect is a DynamoDB put attempt. -/
def Effect.isPut : Effect → Bool
  | Effect.dynamoPut _ => true
  | Effect.snsPublish _ _ => false

/-- Whether an effect is an SNS publish attempt. -/
def Effect.isPublish : Effect → Bool
  | Effect.dynamoPut _ => false
  | Effect.snsPublish _ _ => true

/-- The `saved_to_db` field of a body, when present. -/
def Body.savedToDb : Body → Option Bool
  | Body.report _ _ _ _ s => some s
  | Body.testReport _ _ _ _ s _ => some s
  | _ => none

/-- The `alert_sent` field of a body, when present. -/
def Body.alertSent : Body → Option Bool
  | Body.report _ _ _ a _ => some a
  | _ => none

/-- The `top_services` field of a body, when present. -/
def Body.topServices : Body → Option (List ServiceCost)
  | Body.report _ _ ts _ _ => some ts
  | Body.testReport _ _ _ ts _ _ => some ts
  | _ => none

/-- The `total_cost` field of a body, when present. -/
def Body.totalCost : Body → Option ℚ
  | Body.report _ t _ _ _ => some t
  | Body.testReport _ _ t _ _ _ => some t
  | _ => none

/-- Concrete time bucket used by witnesses: three raw groups, one of which
falls below the 0.01 filter. -/
def bktA : TimeBucket :=
  ⟨"2025-01-01", some 6, some [⟨"EC2", some 4⟩, ⟨"S3", some (1/200)⟩, ⟨"RDS", some 2⟩]⟩

/-- Concrete environment: configured channel, one populated bucket. -/
def envC1 : Env :=
  ⟨some "arn:aws:sns:us-east-1:1:t", Except.ok [bktA], false, false,
   fun _ => 2, "2025-01-02", "ts"⟩

/-- Concrete environment whose fetch raises. -/
def envC2 : Env := ⟨none, Except.error "boom", false, false, fun _ => 2, "d", "ts"⟩

/-- Environment refuting C3/C5: empty fetch, configured channel, publish raises. -/
def envC3bad : Env :=
  ⟨some "arn:aws:sns:us-east-1:1:c3", Except.ok [], false, true, fun _ => 2, "d", "ts"⟩

/-- Same environment with a succeeding publish. -/
def envC3good : Env :=
  ⟨some "arn:aws:sns:us-east-1:1:c3", Except.ok [], false, false, fun _ => 2, "d", "ts"⟩

/-- Environment for the C3 witness: populated fetch, configured channel,
publish raises — status is still 200. -/
def envC3pop : Env :=
  ⟨some "arn:aws:sns:us-east-1:1:c3w", Except.ok [bktA], false, true, fun _ => 2, "d", "ts"⟩

/-- Environment for the C4 witness: failing store write, configured channel,
populated fetch. -/
def envC4 : Env :=
  ⟨some "arn:aws:sns:us-east-1:1:c4", Except.ok [bktA], true, false, fun _ => 2, "d", "ts"⟩

/-- The subject as a function of the synthetic flag and the total. -/
def subjectOf (is_synthetic : Bool) (total_cost : ℚ) : String :=
  if is_synthetic then testSubject total_cost else realSubject total_cost

/-- Concrete in-range draws for the C6 counterexample, summing to 5.05. -/
def drawsC6 : Fin 7 → ℚ
  | ⟨0, _⟩ => 2
  | ⟨1, _⟩ => 1
  | ⟨2, _⟩ => 1/4
  | ⟨3, _⟩ => 1
  | ⟨4, _⟩ => 1/2
  | ⟨5, _⟩ => 1/4
  | ⟨6, _⟩ => 1/20

/-- Environment refuting C6: test mode with draws totalling 5.05 > 5. -/
def envC6 : Env :=
  ⟨some "arn:aws:sns:us-east-1:1:c6", Except.ok [], false, false, drawsC6, "2025-01-02", "ts"⟩

/-- The documented uniform range of each service in the fixed test catalog
(lines 222-230). -/
def catalogRange : String → Option (ℚ × ℚ)
  | "Amazon Elastic Compute Cloud - Compute" => some (1, 3)
  | "Amazon Simple Storage Service" => some (3/10, 12/10)
  | "AWS Lambda" => some (1/20, 2/5)
  | "Amazon Relational Database Service" => some (1/2, 2)
  | "Amazon CloudFront" => some (1/10, 3/5)
  | "Amazon DynamoDB" => some (1/20, 3/10)
  | "Amazon SNS" => some (1/100, 1/10)
  | _ => none

/-- Environment for the C7 witness: the valid C6 draws, in test mode. -/
def envC7 : Env := ⟨none, Except.ok [], false, false, drawsC6, "2025-03-01", "ts"⟩

/-- Environment for the C9 witness: the store write fails. -/
def envC9 : Env := ⟨none, Except.ok [bktA], true, false, drawsC6, "d", "ts"⟩

/-- Environment for the C10 witness: unconfigured channel. -/
def envC10 : Env := ⟨none, Except.ok [bktA], false, true, drawsC6, "d", "ts"⟩

/-! ### Theorems -/

/-- Every service surviving the extraction loop has cost strictly above 0.01. -/
theorem extractServices_cost_pos (gs : List CEGroup) :
    ∀ s ∈ extractServices gs, 1/100 < s.cost := by
  induction gs with
  | nil => intro s hs; simp [extractServices] at hs
  | cons g gs ih =>
    intro s hs
    cases hm : g.metricsAmount with
    | none =>
      simp only [extractServices, hm] at hs
      exact ih s hs
    | some c =>
      simp only [extractServices, hm] at hs
      by_cases hc : c > 1/100
      · rw [if_pos hc] at hs
        rcases List.mem_cons.mp hs with h | h
        · subst h; exact hc
        · exact ih s h
      · rw [if_neg hc] at hs
        exact ih s hs

/-- The descending sort produces a list pairwise non-increasing in cost. -/
theorem sortByCostDesc_sorted (l : List ServiceCost) :
    List.Pairwise (fun a b => b.cost ≤ a.cost) (sortByCostDesc l) := by
  have h := @List.sorted_mergeSort ServiceCost (fun a b => decide (b.cost ≤ a.cost))
    (by intro a b c hab hbc
        simp only [decide_eq_true_eq] at *
        exact le_trans hbc hab)
    (by intro a b
        simp only [Bool.or_eq_true, decide_eq_true_eq]
        exact le_total b.cost a.cost) l
  exact h.imp (by intro a b hh; simpa using hh)

/-- Sorting does not change membership. -/
theorem mem_sortByCostDesc {a : ServiceCost} {l : List ServiceCost} :
    a ∈ sortByCostDesc l ↔ a ∈ l := List.mem_mergeSort

/-- An infix `l <:+: m` extends through appending on the right. -/
theorem isInfix_append_right {l m t : List Char} (h : l <:+: m) : l <:+: m ++ t :=
  h.trans ⟨[], t, rfl⟩

/-- Lists starting with different heads are not prefix-related. -/
theorem cons_not_prefix_cons {a b : Char} {l m : List Char} (h : a ≠ b) :
    ¬ (a :: l <+: b :: m) := by
  rintro ⟨t, ht⟩
  injection ht with h1 _
  exact h h1

/-- C1: in live mode, the services list built by the handler from the raw
per-service listing contains no entry with cost ≤ 0.01, is sorted
non-increasing by cost, and the `top_services` list placed in the result
body is its 5-entry truncation, of length ≤ 5. -/
theorem C1_live_services_filtered_sorted_top5 (env : Env)
    (buckets : List TimeBucket) (results : TimeBucket)
    (h1 : env.fetchResult = Except.ok buckets)
    (h2 : buckets.getLast? = some results) :
    (∀ s ∈ liveServices results, 1/100 < s.cost) ∧
    List.Pairwise (fun a b => b.cost ≤ a.cost) (liveServices results) ∧
    Body.topServices (real_cost_handler env).1.body = some ((liveServices results).take 5) ∧
    ((liveServices results).take 5).length ≤ 5 := by
  refine ⟨?_, ?_, ?_, ?_⟩
  · intro s hs
    exact extractServices_cost_pos _ s (mem_sortByCostDesc.mp hs)
  · exact sortByCostDesc_sorted _
  · simp [real_cost_handler, real_cost_try, h1, h2, Body.topServices]
  · exact List.length_take_le 5 (liveServices results)

/-- Witness for C1 at a concrete populated fetch. -/
theorem C1_witness :
    envC1.fetchResult = Except.ok [bktA] ∧ [bktA].getLast? = some bktA ∧
    ((∀ s ∈ liveServices bktA, 1/100 < s.cost) ∧
     List.Pairwise (fun a b => b.cost ≤ a.cost) (liveServices bktA) ∧
     Body.topServices (real_cost_handler envC1).1.body = some ((liveServices bktA).take 5) ∧
     ((liveServices bktA).take 5).length ≤ 5) :=
  ⟨rfl, rfl, C1_live_services_filtered_sorted_top5 envC1 [bktA] bktA rfl rfl⟩

/-- C2: every invocation, live or test, returns a structured result — a 200,
or a 500 whose body holds the error message — and a fetch/processing
exception in live mode yields exactly the 500 error body; nothing is raised
past the handler. -/
theorem C2_errors_contained (env : Env) (use_test_data : Bool) :
    ((lambda_handler env use_test_data).1.statusCode = 200 ∨
      ∃ e, (lambda_handler env use_test_data).1 = ⟨500, Body.error e⟩) ∧
    (∀ e, env.fetchResult = Except.error e → use_test_data = false →
      (lambda_handler env use_test_data).1 = ⟨500, Body.error e⟩) := by
  constructor
  · cases use_test_data with
    | true => left; simp [lambda_handler, test_mode_handler]
    | false =>
      cases hf : env.fetchResult with
      | error e =>
        right
        exact ⟨e, by simp [lambda_handler, real_cost_handler, real_cost_try, hf]⟩
      | ok buckets =>
        cases hl : buckets.getLast? with
        | none =>
          cases ha : env.snsTopicArn with
          | none =>
            left
            simp [lambda_handler, real_cost_handler, real_cost_try, hf, hl, ha]
          | some arn =>
            cases hp : env.snsPublishFails with
            | false =>
              left
              simp [lambda_handler, real_cost_handler, real_cost_try, hf, hl, ha, hp]
            | true =>
              right
              exact ⟨"sns publish failed",
                by simp [lambda_handler, real_cost_handler, real_cost_try, hf, hl, ha, hp]⟩
        | some results =>
          left
          simp [lambda_handler, real_cost_handler, real_cost_try, hf, hl]
  · intro e hf hu
    subst hu
    simp [lambda_handler, real_cost_handler, real_cost_try, hf]

/-- Witness for C2 at a concrete raising fetch. -/
theorem C2_witness :
    envC2.fetchResult = Except.error "boom" ∧
    (lambda_handler envC2 false).1 = ⟨500, Body.error "boom"⟩ :=
  ⟨rfl, (C2_errors_contained envC2 false).2 "boom" rfl rfl⟩

/-- C3 counterexample: on the no-data path a publish failure is NOT swallowed —
the handler returns 500 where the same run with a succeeding publish returns
200, so a publish failure does convert the run to a failure status. -/
theorem C3_counterexample :
    envC3bad.fetchResult = Except.ok ([] : List TimeBucket) ∧
    envC3bad.snsTopicArn ≠ none ∧ envC3bad.snsPublishFails = true ∧
    (real_cost_handler envC3good).1.statusCode = 200 ∧
    (real_cost_handler envC3bad).1.statusCode = 500 := by
  refine ⟨rfl, ?_, rfl, rfl, rfl⟩
  simp [envC3bad]

/-- C3 amended: a publish failure never aborts the run and, on the populated
live path and in test mode, never changes the returned status (200); but on
the no-data path with a configured channel, a failing publish is caught only
by the top-level handler, which converts the run to a structured 500. -/
theorem C3_amended_publish_failure_policy (env : Env) :
    (∀ buckets results, env.fetchResult = Except.ok buckets →
      buckets.getLast? = some results →
      (real_cost_handler env).1.statusCode = 200) ∧
    (test_mode_handler env).1.statusCode = 200 ∧
    (env.snsTopicArn ≠ none → env.snsPublishFails = true →
      env.fetchResult = Except.ok ([] : List TimeBucket) →
      (real_cost_handler env).1 = ⟨500, Body.error "sns publish failed"⟩) := by
  refine ⟨?_, ?_, ?_⟩
  · intro buckets results h1 h2
    simp [real_cost_handler, real_cost_try, h1, h2]
  · simp [test_mode_handler]
  · intro ha hp hf
    cases haa : env.snsTopicArn with
    | none => exact absurd haa ha
    | some arn => simp [real_cost_handler, real_cost_try, hf, haa, hp]

/-- Witness for the amended C3 at a concrete populated run whose publish fails. -/
theorem C3_witness :
    envC3pop.fetchResult = Except.ok [bktA] ∧ envC3pop.snsPublishFails = true ∧
    (real_cost_handler envC3pop).1.statusCode = 200 :=
  ⟨rfl, rfl, (C3_amended_publish_failure_policy envC3pop).1 [bktA] bktA rfl rfl⟩

/-- C4: when the store write fails (`save_to_dynamodb` returns `False`), the
notification publish is still attempted on the configured channel and the
overall status stays 200, in live mode (populated fetch) and in test mode. -/
theorem C4_store_failure_still_notifies (env : Env)
    (buckets : List TimeBucket) (results : TimeBucket) (arn : String)
    (hd : env.dynamoPutFails = true)
    (ha : env.snsTopicArn = some arn)
    (h1 : env.fetchResult = Except.ok buckets)
    (h2 : buckets.getLast? = some results) :
    (save_to_dynamodb env results.periodStart (results.totalAmount.getD 0)
        (liveServices results) false).1 = false ∧
    ((real_cost_handler env).1.statusCode = 200 ∧
      ∃ subj msg, Effect.snsPublish subj msg ∈ (real_cost_handler env).2) ∧
    ((test_mode_handler env).1.statusCode = 200 ∧
      ∃ subj msg, Effect.snsPublish subj msg ∈ (test_mode_handler env).2) := by
  refine ⟨by simp [save_to_dynamodb, hd], ⟨?_, ?_⟩, ⟨?_, ?_⟩⟩
  · simp [real_cost_handler, real_cost_try, h1, h2]
  · refine ⟨realSubject (results.totalAmount.getD 0),
      realFramedMessage results.periodStart (results.totalAmount.getD 0)
        ((liveServices results).take 5), ?_⟩
    simp [real_cost_handler, real_cost_try, h1, h2, ha, save_to_dynamodb]
  · simp [test_mode_handler]
  · refine ⟨testSubject (testTotal env.draws),
      testMessage env.todayDate (testTotal env.draws)
        (sortByCostDesc (fake_services env.draws)), ?_⟩
    simp [test_mode_handler, ha, save_to_dynamodb]

/-- Witness for C4 at a concrete run with a failing store write. -/
theorem C4_witness :
    envC4.dynamoPutFails = true ∧ envC4.fetchResult = Except.ok [bktA] ∧
    ((save_to_dynamodb envC4 bktA.periodStart (bktA.totalAmount.getD 0)
        (liveServices bktA) false).1 = false ∧
     ((real_cost_handler envC4).1.statusCode = 200 ∧
       ∃ subj msg, Effect.snsPublish subj msg ∈ (real_cost_handler envC4).2) ∧
     ((test_mode_handler envC4).1.statusCode = 200 ∧
       ∃ subj msg, Effect.snsPublish subj msg ∈ (test_mode_handler envC4).2)) :=
  ⟨rfl, rfl,
   C4_store_failure_still_notifies envC4 [bktA] bktA "arn:aws:sns:us-east-1:1:c4"
     rfl rfl rfl rfl⟩

/-- C5 counterexample: fetch returns zero buckets on a configured channel
whose publish raises — the handler returns 500, not 200 (the no-data publish
has no inner exception guard). -/
theorem C5_counterexample :
    envC3bad.fetchResult = Except.ok ([] : List TimeBucket) ∧
    (real_cost_handler envC3bad).1.statusCode = 500 ∧
    ¬ (real_cost_handler envC3bad).1.statusCode = 200 := by
  exact ⟨rfl, rfl, by decide⟩

/-- C5 amended: when the live fetch returns zero time buckets, no store write
is ever attempted, and — provided the channel is unconfigured or the publish
succeeds — the handler returns 200 with the fixed no-data message body. -/
theorem C5_amended_no_data_path (env : Env)
    (h : env.fetchResult = Except.ok ([] : List TimeBucket)) :
    (∀ e ∈ (real_cost_handler env).2, e.isPut = false) ∧
    (env.snsTopicArn = none ∨ env.snsPublishFails = false →
      (real_cost_handler env).1 = ⟨200, Body.message "No cost data available yet"⟩) := by
  constructor
  · intro e he
    cases ha : env.snsTopicArn with
    | none =>
      simp [real_cost_handler, real_cost_try, h, ha] at he
    | some arn =>
      cases hp : env.snsPublishFails with
      | false =>
        simp [real_cost_handler, real_cost_try, h, ha, hp] at he
        subst he; rfl
      | true =>
        simp [real_cost_handler, real_cost_try, h, ha, hp] at he
        rcases he with he | he <;> (subst he; rfl)
  · intro hok
    rcases hok with ha | hp
    · simp [real_cost_handler, real_cost_try, h, ha]
    · cases ha : env.snsTopicArn with
      | none => simp [real_cost_handler, real_cost_try, h, ha]
      | some arn => simp [real_cost_handler, real_cost_try, h, ha, hp]

/-- Witness for the amended C5 at a concrete empty fetch with a succeeding
publish. -/
theorem C5_witness :
    envC3good.fetchResult = Except.ok ([] : List TimeBucket) ∧
    (∀ e ∈ (real_cost_handler envC3good).2, e.isPut = false) ∧
    (real_cost_handler envC3good).1 = ⟨200, Body.message "No cost data available yet"⟩ :=
  ⟨rfl, (C5_amended_no_data_path envC3good rfl).1,
   (C5_amended_no_data_path envC3good rfl).2 (Or.inr rfl)⟩

/-- Lists whose heads differ are not prefix-related. -/
theorem not_prefix_of_head_ne {a b : Char} {l m : List Char} (hab : a ≠ b)
    (hl : l.head? = some a) (hm : m.head? = some b) : ¬ l <+: m := by
  rintro ⟨t, rfl⟩
  cases l with
  | nil => simp at hl
  | cons x xs =>
    simp only [List.head?_cons, Option.some.injEq] at hl
    simp only [List.cons_append, List.head?_cons, Option.some.injEq] at hm
    exact hab (hl.symm.trans hm)

/-- The live report body always starts with a newline. -/
theorem realMessage_head (d : String) (t : ℚ) (l : List ServiceCost) :
    (realMessage d t l).data.head? = some '\n' := by
  rw [realMessage, String.data_append]
  rfl

/-- The test report body always starts with a newline. -/
theorem testMessage_head (d : String) (t : ℚ) (l : List ServiceCost) :
    (testMessage d t l).data.head? = some '\n' := by
  rw [testMessage, String.data_append]
  rfl

/-- Rounding `roundHalfEven` is the identity on integers. -/
theorem roundHalfEven_intCast (n : ℤ) : roundHalfEven ((n : ℚ)) = n := by
  have h : ¬ (2 * ((n : ℚ) - (⌊(n : ℚ)⌋ : ℚ)) = 1) := by
    rw [Int.floor_intCast]
    simp
  rw [roundHalfEven, if_neg h, round_intCast]

/-- The C6 draws are within the support of their `random.uniform` calls. -/
theorem drawsC6_valid : envC6.validDraws := by
  intro i
  obtain ⟨v, hv⟩ := i
  interval_cases v <;>
    exact ⟨by norm_num [drawRange, drawsC6, envC6], by norm_num [drawRange, drawsC6, envC6]⟩

/-- The C6 total is exactly 5.05. -/
theorem testTotal_drawsC6 : testTotal drawsC6 = 101/20 := by
  have h0 : drawsC6 0 = 2 := rfl
  have h1 : drawsC6 1 = 1 := rfl
  have h2 : drawsC6 2 = 1/4 := rfl
  have h3 : drawsC6 3 = 1 := rfl
  have h4 : drawsC6 4 = 1/2 := rfl
  have h5 : drawsC6 5 = 1/4 := rfl
  have h6 : drawsC6 6 = 1/20 := rfl
  norm_num [testTotal, fake_services, h0, h1, h2, h3, h4, h5, h6]

/-- The C6 total renders as `5.05`. -/
theorem fmt2_drawsC6_total : fmt2 (testTotal drawsC6) = "5.05" := by
  have h : testTotal drawsC6 * 100 = ((505 : ℤ) : ℚ) := by
    rw [testTotal_drawsC6]
    norm_num
  rw [fmt2, h, roundHalfEven_intCast]
  rfl

/-- The C6 subject is the test alert subject, rendered. -/
theorem testSubject_drawsC6 :
    testSubject (testTotal drawsC6) = " TEST ALERT - Cost: $5.05" := by
  have hgt : testTotal drawsC6 > 5 := by
    rw [testTotal_drawsC6]
    norm_num
  rw [testSubject, if_pos hgt, fmt2_drawsC6_total]
  rfl

/-- C6 counterexample: a valid test-mode run whose total exceeds the
threshold publishes a subject that does not contain "Alert" (only "ALERT"),
and a body that does not begin with the alert banner. -/
theorem C6_counterexample :
    envC6.validDraws ∧ testTotal envC6.draws > 5 ∧
    (test_mode_handler envC6).2.getLast? =
      some (Effect.snsPublish (testSubject (testTotal envC6.draws))
        (testMessage envC6.todayDate (testTotal envC6.draws)
          (sortByCostDesc (fake_services envC6.draws)))) ∧
    ¬ ("Alert".data <:+: (testSubject (testTotal envC6.draws)).data) ∧
    ¬ (alertBanner.data <+:
        (testMessage envC6.todayDate (testTotal envC6.draws)
          (sortByCostDesc (fake_services envC6.draws))).data) := by
  refine ⟨drawsC6_valid, ?_, rfl, ?_, ?_⟩
  · show testTotal drawsC6 > 5
    rw [testTotal_drawsC6]
    norm_num
  · show ¬ ("Alert".data <:+: (testSubject (testTotal drawsC6)).data)
    rw [testSubject_drawsC6]
    decide
  · exact not_prefix_of_head_ne (by decide) rfl (testMessage_head _ _ _)

/-- C6 amended: the subject takes exactly one of four mutually exclusive
forms determined by (is_synthetic, total_cost > 5).  When the total exceeds
the threshold, in live mode the subject contains "Alert" and the body begins
with the alert banner; in test mode the subject contains "ALERT" (not
"Alert") and the body never carries the banner.  When the total does not
exceed the threshold no banner is present in either mode. -/
theorem C6_amended_subject_alert_forms (is_synthetic : Bool) (total_cost : ℚ)
    (report_date today : String) (top_5 sorted : List ServiceCost) :
    (subjectOf is_synthetic total_cost =
      (if is_synthetic then
        (if total_cost > 5 then " TEST ALERT - Cost: $" else " TEST - AWS Cost: $")
       else
        (if total_cost > 5 then " AWS Cost Alert: $" else "AWS Daily Cost Report: $"))
        ++ fmt2 total_cost) ∧
    List.Pairwise (fun a b => a ≠ b)
      [" TEST ALERT - Cost: $", " TEST - AWS Cost: $", " AWS Cost Alert: $",
       "AWS Daily Cost Report: $"] ∧
    (total_cost > 5 →
      ("Alert".data <:+: (realSubject total_cost).data) ∧
      alertBanner.data <+: (realFramedMessage report_date total_cost top_5).data ∧
      ("ALERT".data <:+: (testSubject total_cost).data)) ∧
    (¬ total_cost > 5 →
      ¬ alertBanner.data <+: (realFramedMessage report_date total_cost top_5).data) ∧
    ¬ alertBanner.data <+: (testMessage today total_cost sorted).data := by
  refine ⟨?_, by decide, ?_, ?_, ?_⟩
  · cases is_synthetic <;> by_cases h : total_cost > 5 <;>
      simp [subjectOf, testSubject, realSubject, h]
  · intro h
    refine ⟨?_, ?_, ?_⟩
    · rw [realSubject, if_pos h, String.data_append]
      exact isInfix_append_right (by decide)
    · rw [realFramedMessage, if_pos h, String.data_append]
      exact List.prefix_append _ _
    · rw [testSubject, if_pos h, String.data_append]
      exact isInfix_append_right (by decide)
  · intro h
    rw [realFramedMessage, if_neg h]
    exact not_prefix_of_head_ne (by decide) rfl (realMessage_head _ _ _)
  · exact not_prefix_of_head_ne (by decide) rfl (testMessage_head _ _ _)

/-- Witness for the amended C6 at total 6 (above threshold). -/
theorem C6_witness :
    (6 : ℚ) > 5 ∧
    (("Alert".data <:+: (realSubject 6).data) ∧
     alertBanner.data <+: (realFramedMessage "2025-01-01" 6 []).data ∧
     ("ALERT".data <:+: (testSubject 6).data)) :=
  ⟨by norm_num,
   (C6_amended_subject_alert_forms false 6 "2025-01-01" "d" [] []).2.2.1 (by norm_num)⟩

/-- C7: every test-mode run draws services only from the fixed 7-name
catalog, each cost within that service's documented uniform range, and the
body's total is the exact sum of the 7 generated costs, computed before
sorting or truncation. -/
theorem C7_test_generation_catalog_and_total (env : Env) (h : env.validDraws) :
    (∀ s ∈ fake_services env.draws, ∃ lo hi,
      catalogRange s.service = some (lo, hi) ∧ lo ≤ s.cost ∧ s.cost ≤ hi) ∧
    testTotal env.draws =
      env.draws 0 + env.draws 1 + env.draws 2 + env.draws 3 +
        env.draws 4 + env.draws 5 + env.draws 6 ∧
    Body.totalCost (test_mode_handler env).1.body = some (testTotal env.draws) := by
  refine ⟨?_, ?_, ?_⟩
  · intro s hs
    simp only [fake_services, List.mem_cons, List.not_mem_nil, or_false] at hs
    rcases hs with rfl | rfl | rfl | rfl | rfl | rfl | rfl
    · exact ⟨1, 3, rfl, (h 0).1, (h 0).2⟩
    · exact ⟨3/10, 12/10, rfl, (h 1).1, (h 1).2⟩
    · exact ⟨1/20, 2/5, rfl, (h 2).1, (h 2).2⟩
    · exact ⟨1/2, 2, rfl, (h 3).1, (h 3).2⟩
    · exact ⟨1/10, 3/5, rfl, (h 4).1, (h 4).2⟩
    · exact ⟨1/20, 3/10, rfl, (h 5).1, (h 5).2⟩
    · exact ⟨1/100, 1/10, rfl, (h 6).1, (h 6).2⟩
  · simp only [testTotal, fake_services, List.map_cons, List.map_nil,
      List.sum_cons, List.sum_nil]
    ring
  · simp [test_mode_handler, Body.totalCost]

/-- Witness for C7 at the concrete valid draws. -/
theorem C7_witness :
    envC7.validDraws ∧
    Body.totalCost (test_mode_handler envC7).1.body = some (testTotal envC7.draws) :=
  ⟨drawsC6_valid, (C7_test_generation_catalog_and_total envC7 drawsC6_valid).2.2⟩

/-- C8: when a record is persisted, the stored services list is the 10-entry
truncation (with cents rounding) while the displayed/result list is the
5-entry truncation, in live mode and in test mode — two independent cut
points. -/
theorem C8_storage_vs_display_truncation (env : Env)
    (buckets : List TimeBucket) (results : TimeBucket)
    (h1 : env.fetchResult = Except.ok buckets)
    (h2 : buckets.getLast? = some results) :
    Effect.dynamoPut
      ⟨results.periodStart, round2 (results.totalAmount.getD 0),
       ((liveServices results).take 10).map (fun svc => ⟨svc.service, round2 svc.cost⟩),
       env.nowTimestamp, false⟩ ∈ (real_cost_handler env).2 ∧
    Body.topServices (real_cost_handler env).1.body =
      some ((liveServices results).take 5) ∧
    Effect.dynamoPut
      ⟨env.todayDate, round2 (testTotal env.draws),
       ((sortByCostDesc (fake_services env.draws)).take 10).map
         (fun svc => ⟨svc.service, round2 svc.cost⟩),
       env.nowTimestamp, true⟩ ∈ (test_mode_handler env).2 ∧
    Body.topServices (test_mode_handler env).1.body =
      some ((sortByCostDesc (fake_services env.draws)).take 5) := by
  refine ⟨?_, ?_, ?_, ?_⟩
  · cases ha : env.snsTopicArn <;>
      simp [real_cost_handler, real_cost_try, h1, h2, ha, save_to_dynamodb]
  · simp [real_cost_handler, real_cost_try, h1, h2, Body.topServices]
  · cases ha : env.snsTopicArn <;>
      simp [test_mode_handler, ha, save_to_dynamodb]
  · simp [test_mode_handler, Body.topServices]

/-- Witness for C8 at the concrete populated fetch. -/
theorem C8_witness :
    envC1.fetchResult = Except.ok [bktA] ∧
    Body.topServices (real_cost_handler envC1).1.body =
      some ((liveServices bktA).take 5) :=
  ⟨rfl, (C8_storage_vs_display_truncation envC1 [bktA] bktA rfl rfl).2.1⟩

/-- C9: whenever the persistence step is reached, the returned body's
`saved_to_db` field is `true` unconditionally — in particular also when the
store write fails, whose `False` return is discarded. -/
theorem C9_saved_to_db_always_true (env : Env)
    (buckets : List TimeBucket) (results : TimeBucket)
    (h1 : env.fetchResult = Except.ok buckets)
    (h2 : buckets.getLast? = some results) :
    Body.savedToDb (real_cost_handler env).1.body = some true ∧
    Body.savedToDb (test_mode_handler env).1.body = some true ∧
    (env.dynamoPutFails = true →
      (save_to_dynamodb env results.periodStart (results.totalAmount.getD 0)
        (liveServices results) false).1 = false) := by
  refine ⟨?_, ?_, ?_⟩
  · simp [real_cost_handler, real_cost_try, h1, h2, Body.savedToDb]
  · simp [test_mode_handler, Body.savedToDb]
  · intro hd
    simp [save_to_dynamodb, hd]

/-- Witness for C9 at a concrete run whose store write fails. -/
theorem C9_witness :
    envC9.dynamoPutFails = true ∧
    Body.savedToDb (real_cost_handler envC9).1.body = some true ∧
    (save_to_dynamodb envC9 bktA.periodStart (bktA.totalAmount.getD 0)
      (liveServices bktA) false).1 = false :=
  ⟨rfl, (C9_saved_to_db_always_true envC9 [bktA] bktA rfl rfl).1,
   (C9_saved_to_db_always_true envC9 [bktA] bktA rfl rfl).2.2 rfl⟩

/-- C10: in every successful live-mode run the returned `alert_sent` field
equals the threshold comparison `total_cost > 5.0`, for every environment —
in particular also when the channel is unconfigured or the publish fails. -/
theorem C10_alert_sent_is_threshold_compare (env : Env)
    (buckets : List TimeBucket) (results : TimeBucket)
    (h1 : env.fetchResult = Except.ok buckets)
    (h2 : buckets.getLast? = some results) :
    (real_cost_handler env).1.statusCode = 200 ∧
    Body.alertSent (real_cost_handler env).1.body =
      some (decide (results.totalAmount.getD 0 > 5)) := by
  constructor
  · simp [real_cost_handler, real_cost_try, h1, h2]
  · simp [real_cost_handler, real_cost_try, h1, h2, Body.alertSent]

/-- Witness for C10: alert_sent is reported with no channel configured. -/
theorem C10_witness :
    envC10.snsTopicArn = none ∧ envC10.fetchResult = Except.ok [bktA] ∧
    Body.alertSent (real_cost_handler envC10).1.body =
      some (decide (bktA.totalAmount.getD 0 > 5)) :=
  ⟨rfl, rfl, (C10_alert_sent_is_threshold_compare envC10 [bktA] bktA rfl rfl).2⟩
